import Mathlib

/-!
Verification of `src/tools/generate_taint_models/generator_specifications.py`.

The module declares three Python `NamedTuple` record types:

* `AnnotationSpecification` with four `Optional[str]` fields
  (`arg`, `vararg`, `kwarg`, `returns`), all defaulting to `None`;
* `WhitelistSpecification` with two `Optional[Set[str]]` fields
  (`parameter_type`, `parameter_name`), both defaulting to `None`;
* `DecoratorAnnotationSpecification` with a required `str` field `decorator`
  followed by four `Optional[str]` fields and two `Optional[Set[str]]`
  fields, all defaulting to `None`.

The embedding below models `Optional[str]` as `Option String`, `Set[str]` as
`Finset String` (Python `set` equality is extensional and order-free), a
Python keyword call as one `Option`-wrapped argument per keyword (outer
`none` = the argument was omitted at the call), and `TypeError` at
construction as an `Option`-valued constructor returning `none`.
-/

/-- A Python value of one of the shapes that can stand in a field of these
records: a string, the constant `None`, or a set of strings.  Used to view a
`NamedTuple` instance as the tuple of its field values. -/
inductive PyValue where
  | str : String → PyValue
  | pyNone : PyValue
  | strSet : Finset String → PyValue
deriving DecidableEq

/-- The tuple component held by an `Optional[str]` field. -/
def optStr : Option String → PyValue
  | some s => PyValue.str s
  | none => PyValue.pyNone

/-- The tuple component held by an `Optional[Set[str]]` field. -/
def optStrSet : Option (Finset String) → PyValue
  | some s => PyValue.strSet s
  | none => PyValue.pyNone

/-- `class AnnotationSpecification(NamedTuple)`: the annotation strings for a
normal argument, the variable-positional argument, the variable-keyword
argument and the return value; every field defaults to `None`. -/
structure AnnotationSpecification where
  arg : Option String := none
  vararg : Option String := none
  kwarg : Option String := none
  returns : Option String := none
deriving DecidableEq

/-- `class WhitelistSpecification(NamedTuple)`: optional exclusion sets of
parameter type names and parameter names; both fields default to `None`. -/
structure WhitelistSpecification where
  parameter_type : Option (Finset String) := none
  parameter_name : Option (Finset String) := none
deriving DecidableEq

/-- `class DecoratorAnnotationSpecification(NamedTuple)`: a required
`decorator` string followed by the four annotation fields and the two
whitelist fields, each defaulting to `None`. -/
structure DecoratorAnnotationSpecification where
  decorator : String
  arg_annotation : Option String := none
  vararg_annotation : Option String := none
  kwarg_annotation : Option String := none
  return_annotation : Option String := none
  parameter_type_whitelist : Option (Finset String) := none
  parameter_name_whitelist : Option (Finset String) := none
deriving DecidableEq

/-- The Python call `AnnotationSpecification(...)`: each keyword argument is
either omitted at the call (outer `none`) or supplied with an `Optional[str]`
value (outer `some`); an omitted argument takes the declared default `None`.
`NamedTuple` construction performs no validation, so the call always returns
an instance; the `Option` result records that no `TypeError` branch exists. -/
def AnnotationSpecification.construct
    (arg vararg kwarg returns : Option (Option String)) :
    Option AnnotationSpecification :=
  some { arg := arg.getD none, vararg := vararg.getD none,
         kwarg := kwarg.getD none, returns := returns.getD none }

/-- The Python call `WhitelistSpecification(...)`, with the same call model:
both fields have defaults, so construction always succeeds. -/
def WhitelistSpecification.construct
    (parameter_type parameter_name : Option (Option (Finset String))) :
    Option WhitelistSpecification :=
  some { parameter_type := parameter_type.getD none,
         parameter_name := parameter_name.getD none }

/-- The Python call `DecoratorAnnotationSpecification(...)`: the `decorator`
field has no default in the class, so Python raises `TypeError` when that
argument is omitted (`none` result); every other argument is optional and an
omitted one takes the declared default `None`. -/
def DecoratorAnnotationSpecification.construct
    (decorator : Option String)
    (arg_ann vararg_ann kwarg_ann return_ann : Option (Option String))
    (type_wl name_wl : Option (Option (Finset String))) :
    Option DecoratorAnnotationSpecification :=
  match decorator with
  | none => none
  | some d =>
      some { decorator := d,
             arg_annotation := arg_ann.getD none,
             vararg_annotation := vararg_ann.getD none,
             kwarg_annotation := kwarg_ann.getD none,
             return_annotation := return_ann.getD none,
             parameter_type_whitelist := type_wl.getD none,
             parameter_name_whitelist := name_wl.getD none }

/-- Modelled from the spec: the exemption check belongs to the external
generator that consumes a `WhitelistSpecification` and is not part of this
module.  Per the spec, a parameter is exempt iff its type name is a member of
`parameter_type` when that set is set, or its name is a member of
`parameter_name` when that set is set. -/
def WhitelistSpecification.isExempt (w : WhitelistSpecification)
    (ptype pname : String) : Bool :=
  (match w.parameter_type with
   | some ts => decide (ptype ∈ ts)
   | none => false)
  ||
  (match w.parameter_name with
   | some ns => decide (pname ∈ ns)
   | none => false)

/-- Modelled from the spec: the external lookup selects, among the known
decorator specifications, the entry whose `decorator` field textually matches
the decorator observed on the callable. -/
def lookupSpecification (table : List DecoratorAnnotationSpecification)
    (d : String) : Option DecoratorAnnotationSpecification :=
  table.find? (fun s => s.decorator == d)

/-- Modelled from the spec: the whitelist embedded inline in a decorator
specification, i.e. its two `*_whitelist` fields read as a
`WhitelistSpecification`. -/
def DecoratorAnnotationSpecification.whitelist
    (s : DecoratorAnnotationSpecification) : WhitelistSpecification :=
  { parameter_type := s.parameter_type_whitelist,
    parameter_name := s.parameter_name_whitelist }

/-- The error raised by an operation on these records.  A `NamedTuple`
instance is a tuple, so CPython rejects every attribute assignment on it with
`AttributeError`. -/
inductive PyError where
  | attributeError
deriving DecidableEq

/-- The Python statement `instance.field = value` on an
`AnnotationSpecification`: tuples are immutable, so the assignment raises
`AttributeError` for every field name and every value, and no field of the
instance changes. -/
def AnnotationSpecification.setAttr (_s : AnnotationSpecification)
    (_f : String) (_v : PyValue) : Except PyError AnnotationSpecification :=
  Except.error PyError.attributeError

/-- The instance observed after an attempted `instance.field = value` on an
`AnnotationSpecification`: the assignment raised, so a later read still sees
the original instance. -/
def AnnotationSpecification.afterSetAttr (s : AnnotationSpecification)
    (f : String) (v : PyValue) : AnnotationSpecification :=
  match s.setAttr f v with
  | Except.ok t => t
  | Except.error _ => s

/-- The Python statement `instance.field = value` on a
`WhitelistSpecification`: rejected with `AttributeError`, as for every
`NamedTuple` instance. -/
def WhitelistSpecification.setAttr (_s : WhitelistSpecification)
    (_f : String) (_v : PyValue) : Except PyError WhitelistSpecification :=
  Except.error PyError.attributeError

/-- The instance observed after an attempted assignment on a
`WhitelistSpecification`. -/
def WhitelistSpecification.afterSetAttr (s : WhitelistSpecification)
    (f : String) (v : PyValue) : WhitelistSpecification :=
  match s.setAttr f v with
  | Except.ok t => t
  | Except.error _ => s

/-- The Python statement `instance.field = value` on a
`DecoratorAnnotationSpecification`: rejected with `AttributeError`, as for
every `NamedTuple` instance. -/
def DecoratorAnnotationSpecification.setAttr
    (_s : DecoratorAnnotationSpecification) (_f : String) (_v : PyValue) :
    Except PyError DecoratorAnnotationSpecification :=
  Except.error PyError.attributeError

/-- The instance observed after an attempted assignment on a
`DecoratorAnnotationSpecification`. -/
def DecoratorAnnotationSpecification.afterSetAttr
    (s : DecoratorAnnotationSpecification) (f : String) (v : PyValue) :
    DecoratorAnnotationSpecification :=
  match s.setAttr f v with
  | Except.ok t => t
  | Except.error _ => s

/-- The Python heap of mutable `set` objects: a store assigning to each set
object (numbered by a reference) its current contents.  A record field of
type `Optional[Set[str]]` holds such a reference, not the contents, so
mutating the set object changes what is read through the record while the
record value itself is unchanged. -/
def SetStore : Type := Nat → Finset String

/-- The Python call `set_object.add(x)` on the set object `r`: the store
after the in-place mutation.  No record field is reassigned by it. -/
def SetStore.add (store : SetStore) (r : Nat) (x : String) : SetStore :=
  fun i => if i = r then insert x (store i) else store i

/-- A `WhitelistSpecification` as it lives on the Python heap: its optional
set fields hold references to mutable set objects in a `SetStore`. -/
structure WhitelistSpecificationRef where
  parameter_type : Option Nat := none
  parameter_name : Option Nat := none
deriving DecidableEq

/-- Reading the contents of the `parameter_name` whitelist through the
record: dereferences the held set object in the current store. -/
def WhitelistSpecificationRef.readName
    (s : WhitelistSpecificationRef) (store : SetStore) :
    Option (Finset String) :=
  s.parameter_name.map store

/-- A store holding one set object, numbered 0 and initially empty. -/
def exampleStore : SetStore := fun _ => ∅

/-- A heap-level whitelist record whose `parameter_name` field holds a
reference to the set object numbered 0. -/
def exampleRef : WhitelistSpecificationRef :=
  { parameter_type := none, parameter_name := some 0 }

/-- A `NamedTuple` instance is a tuple: the tuple of field values of an
`AnnotationSpecification`, in field declaration order. -/
def AnnotationSpecification.toTuple (s : AnnotationSpecification) :
    List PyValue :=
  [optStr s.arg, optStr s.vararg, optStr s.kwarg, optStr s.returns]

/-- The tuple of field values of a `WhitelistSpecification`, in field
declaration order. -/
def WhitelistSpecification.toTuple (s : WhitelistSpecification) :
    List PyValue :=
  [optStrSet s.parameter_type, optStrSet s.parameter_name]

/-- The tuple of field values of a `DecoratorAnnotationSpecification`, in
field declaration order: `decorator` comes first. -/
def DecoratorAnnotationSpecification.toTuple
    (s : DecoratorAnnotationSpecification) : List PyValue :=
  [PyValue.str s.decorator, optStr s.arg_annotation,
   optStr s.vararg_annotation, optStr s.kwarg_annotation,
   optStr s.return_annotation, optStrSet s.parameter_type_whitelist,
   optStrSet s.parameter_name_whitelist]

/-- Python `==` between tuple values (`tuple.__eq__`): componentwise value
equality.  A `NamedTuple` instance compares as the tuple of its field
values, so this is also the equality Python applies between such an instance
and a plain tuple. -/
def pyTupleEq (a b : List PyValue) : Bool :=
  decide (a = b)

/-- The positional Python call
`DecoratorAnnotationSpecification(d, a, v, k, r, tw, nw)`: a `NamedTuple`
accepts positional arguments in field declaration order. -/
def DecoratorAnnotationSpecification.ofPositional
    (d : String) (a v k r : Option String)
    (tw nw : Option (Finset String)) : DecoratorAnnotationSpecification :=
  { decorator := d, arg_annotation := a, vararg_annotation := v,
    kwarg_annotation := k, return_annotation := r,
    parameter_type_whitelist := tw, parameter_name_whitelist := nw }

/-- The configuration of the spec's example scenario:
`DecoratorAnnotationSpecification(decorator="cached_property",
return_annotation="Any", parameter_name_whitelist={"self"})`. -/
def cachedPropertySpec : DecoratorAnnotationSpecification :=
  { decorator := "cached_property",
    return_annotation := some "Any",
    parameter_name_whitelist := some {"self"} }

/-- C1: for every valid combination of optional field values, constructing
each of the three record types succeeds and round-trips: reading back each
field yields exactly the value supplied at construction, or the default
`none` for every omitted field; in particular,
`DecoratorAnnotationSpecification(decorator="staticmethod")` has all six
remaining fields unset and `decorator` equal to `"staticmethod"`. -/
theorem construct_round_trip :
    (∀ x v k r, (AnnotationSpecification.construct (some x) v k r).map
      (fun s => s.arg) = some x) ∧
    (∀ v k r, (AnnotationSpecification.construct none v k r).map
      (fun s => s.arg) = some none) ∧
    (∀ a x k r, (AnnotationSpecification.construct a (some x) k r).map
      (fun s => s.vararg) = some x) ∧
    (∀ a k r, (AnnotationSpecification.construct a none k r).map
      (fun s => s.vararg) = some none) ∧
    (∀ a v x r, (AnnotationSpecification.construct a v (some x) r).map
      (fun s => s.kwarg) = some x) ∧
    (∀ a v r, (AnnotationSpecification.construct a v none r).map
      (fun s => s.kwarg) = some none) ∧
    (∀ a v k x, (AnnotationSpecification.construct a v k (some x)).map
      (fun s => s.returns) = some x) ∧
    (∀ a v k, (AnnotationSpecification.construct a v k none).map
      (fun s => s.returns) = some none) ∧
    (∀ x n, (WhitelistSpecification.construct (some x) n).map
      (fun s => s.parameter_type) = some x) ∧
    (∀ n, (WhitelistSpecification.construct none n).map
      (fun s => s.parameter_type) = some none) ∧
    (∀ t x, (WhitelistSpecification.construct t (some x)).map
      (fun s => s.parameter_name) = some x) ∧
    (∀ t, (WhitelistSpecification.construct t none).map
      (fun s => s.parameter_name) = some none) ∧
    (∀ d a v k r tw nw,
      (DecoratorAnnotationSpecification.construct (some d) a v k r tw nw).map
        (fun s => s.decorator) = some d) ∧
    (∀ d x v k r tw nw,
      (DecoratorAnnotationSpecification.construct (some d) (some x) v k r tw
        nw).map (fun s => s.arg_annotation) = some x) ∧
    (∀ d v k r tw nw,
      (DecoratorAnnotationSpecification.construct (some d) none v k r tw
        nw).map (fun s => s.arg_annotation) = some none) ∧
    (∀ d a x k r tw nw,
      (DecoratorAnnotationSpecification.construct (some d) a (some x) k r tw
        nw).map (fun s => s.vararg_annotation) = some x) ∧
    (∀ d a k r tw nw,
      (DecoratorAnnotationSpecification.construct (some d) a none k r tw
        nw).map (fun s => s.vararg_annotation) = some none) ∧
    (∀ d a v x r tw nw,
      (DecoratorAnnotationSpecification.construct (some d) a v (some x) r tw
        nw).map (fun s => s.kwarg_annotation) = some x) ∧
    (∀ d a v r tw nw,
      (DecoratorAnnotationSpecification.construct (some d) a v none r tw
        nw).map (fun s => s.kwarg_annotation) = some none) ∧
    (∀ d a v k x tw nw,
      (DecoratorAnnotationSpecification.construct (some d) a v k (some x) tw
        nw).map (fun s => s.return_annotation) = some x) ∧
    (∀ d a v k tw nw,
      (DecoratorAnnotationSpecification.construct (some d) a v k none tw
        nw).map (fun s => s.return_annotation) = some none) ∧
    (∀ d a v k r x nw,
      (DecoratorAnnotationSpecification.construct (some d) a v k r (some x)
        nw).map (fun s => s.parameter_type_whitelist) = some x) ∧
    (∀ d a v k r nw,
      (DecoratorAnnotationSpecification.construct (some d) a v k r none
        nw).map (fun s => s.parameter_type_whitelist) = some none) ∧
    (∀ d a v k r tw x,
      (DecoratorAnnotationSpecification.construct (some d) a v k r tw
        (some x)).map (fun s => s.parameter_name_whitelist) = some x) ∧
    (∀ d a v k r tw,
      (DecoratorAnnotationSpecification.construct (some d) a v k r tw
        none).map (fun s => s.parameter_name_whitelist) = some none) ∧
    (DecoratorAnnotationSpecification.construct (some "staticmethod") none
      none none none none none =
      some { decorator := "staticmethod", arg_annotation := none,
             vararg_annotation := none, kwarg_annotation := none,
             return_annotation := none, parameter_type_whitelist := none,
             parameter_name_whitelist := none }) := by
  refine ⟨?_, ?_, ?_, ?_, ?_, ?_, ?_, ?_, ?_, ?_, ?_, ?_, ?_, ?_, ?_, ?_,
    ?_, ?_, ?_, ?_, ?_, ?_, ?_, ?_, ?_, ?_⟩ <;> intros <;> rfl

/-- C2 (amended): construction accepts every string as `decorator`,
including the empty string; the call succeeds and `decorator` reads back the
supplied string, so no non-emptiness validation is performed. -/
theorem decorator_any_string :
    ∀ (d : String) a v k r tw nw,
      (DecoratorAnnotationSpecification.construct (some d) a v k r tw
        nw).isSome = true ∧
      (DecoratorAnnotationSpecification.construct (some d) a v k r tw
        nw).map (fun s => s.decorator) = some d := by
  intros
  exact ⟨rfl, rfl⟩

/-- C2 (counterexample): constructing with `decorator=""` succeeds and the
constructed instance has the empty string as its `decorator`, so it is not
true that every constructed instance has a non-empty `decorator`. -/
theorem decorator_empty_accepted :
    (DecoratorAnnotationSpecification.construct (some "") none none none
      none none none).isSome = true ∧
    (DecoratorAnnotationSpecification.construct (some "") none none none
      none none none).map (fun s => s.decorator) = some "" :=
  ⟨rfl, rfl⟩

/-- C3: omitting `decorator` fails construction (`TypeError`, modelled as
`none`) for every combination of the other arguments, while omitting any or
all of the other six arguments always succeeds. -/
theorem decorator_required :
    (∀ a v k r tw nw,
      DecoratorAnnotationSpecification.construct none a v k r tw nw =
        none) ∧
    (∀ d, (DecoratorAnnotationSpecification.construct (some d) none none
      none none none none).isSome = true) ∧
    (∀ d a v k r tw nw,
      (DecoratorAnnotationSpecification.construct (some d) a v k r tw
        nw).isSome = true) := by
  refine ⟨?_, ?_, ?_⟩ <;> intros <;> rfl

/-- C4: constructing an `AnnotationSpecification` or a
`WhitelistSpecification` cannot fail: for every choice of arguments,
including supplying none of them, construction succeeds; there is no
validation and no error condition. -/
theorem construct_never_fails :
    (∀ a v k r,
      (AnnotationSpecification.construct a v k r).isSome = true) ∧
    ((AnnotationSpecification.construct none none none none).isSome =
      true) ∧
    (∀ t n, (WhitelistSpecification.construct t n).isSome = true) ∧
    ((WhitelistSpecification.construct none none).isSome = true) := by
  refine ⟨?_, ?_, ?_, ?_⟩ <;> intros <;> rfl

/-- C5: equality is value-based: for every pair of instances of the same
record type, the two are equal iff all their corresponding fields are equal
(so two instances differing in any one field are unequal). -/
theorem eq_iff_fields :
    (∀ s t : AnnotationSpecification,
      s = t ↔ s.arg = t.arg ∧ s.vararg = t.vararg ∧ s.kwarg = t.kwarg ∧
        s.returns = t.returns) ∧
    (∀ s t : WhitelistSpecification,
      s = t ↔ s.parameter_type = t.parameter_type ∧
        s.parameter_name = t.parameter_name) ∧
    (∀ s t : DecoratorAnnotationSpecification,
      s = t ↔ s.decorator = t.decorator ∧
        s.arg_annotation = t.arg_annotation ∧
        s.vararg_annotation = t.vararg_annotation ∧
        s.kwarg_annotation = t.kwarg_annotation ∧
        s.return_annotation = t.return_annotation ∧
        s.parameter_type_whitelist = t.parameter_type_whitelist ∧
        s.parameter_name_whitelist = t.parameter_name_whitelist) := by
  refine ⟨fun s t => ?_, fun s t => ?_, fun s t => ?_⟩ <;>
    (cases s; cases t; simp)

/-- C6: a parameter is exempt under a `WhitelistSpecification` iff its type
name belongs to `parameter_type` when that set is set, or its name belongs
to `parameter_name` when that set is set; when both sets are unset, no
parameter is exempt. -/
theorem isExempt_iff :
    ∀ (w : WhitelistSpecification) (ptype pname : String),
      (w.isExempt ptype pname = true ↔
        (∃ ts, w.parameter_type = some ts ∧ ptype ∈ ts) ∨
        (∃ ns, w.parameter_name = some ns ∧ pname ∈ ns)) ∧
      (w.parameter_type = none ∧ w.parameter_name = none →
        w.isExempt ptype pname = false) := by
  rintro ⟨pt, pn⟩ ptype pname
  cases pt <;> cases pn <;>
    constructor <;>
      simp [WhitelistSpecification.isExempt]

/-- C7: the three record types are immutable: every attempted field
assignment on an instance is rejected with `AttributeError`, and the
instance observed afterwards is the original one, every field unchanged. -/
theorem records_immutable :
    (∀ (s : AnnotationSpecification) (f : String) (v : PyValue),
      s.setAttr f v = Except.error PyError.attributeError ∧
      s.afterSetAttr f v = s) ∧
    (∀ (s : WhitelistSpecification) (f : String) (v : PyValue),
      s.setAttr f v = Except.error PyError.attributeError ∧
      s.afterSetAttr f v = s) ∧
    (∀ (s : DecoratorAnnotationSpecification) (f : String) (v : PyValue),
      s.setAttr f v = Except.error PyError.attributeError ∧
      s.afterSetAttr f v = s) := by
  refine ⟨fun s f v => ⟨rfl, rfl⟩, fun s f v => ⟨rfl, rfl⟩,
    fun s f v => ⟨rfl, rfl⟩⟩

/-- C8: for `DecoratorAnnotationSpecification(decorator="cached_property",
return_annotation="Any", parameter_name_whitelist={"self"})`: the lookup for
a callable decorated with `"cached_property"` selects this specification;
under the exemption rule a parameter named `"self"` is exempt, a parameter
named `"value"` is not exempt and receives no annotation because
`arg_annotation` is unset, and the return value receives `"Any"`. -/
theorem cached_property_scenario :
    DecoratorAnnotationSpecification.construct (some "cached_property")
      none none none (some (some "Any")) none
      (some (some ({"self"} : Finset String))) = some cachedPropertySpec ∧
    lookupSpecification [cachedPropertySpec] "cached_property" =
      some cachedPropertySpec ∧
    cachedPropertySpec.whitelist.isExempt "int" "self" = true ∧
    cachedPropertySpec.whitelist.isExempt "int" "value" = false ∧
    cachedPropertySpec.arg_annotation = none ∧
    cachedPropertySpec.return_annotation = some "Any" := by
  refine ⟨rfl, ?_, ?_, ?_, rfl, rfl⟩ <;> decide

/-- C9: immutability of the records is shallow: a record field holds a
reference to a mutable set object, so after an in-place `add` on that set
object the record is unchanged (its `parameter_name` field still holds the
same reference) yet the whitelist contents read through the record have
changed. -/
theorem whitelist_sets_mutable :
    exampleRef.parameter_name = some 0 ∧
    exampleRef.readName exampleStore = some (∅ : Finset String) ∧
    exampleRef.readName (SetStore.add exampleStore 0 "self") =
      some ({"self"} : Finset String) ∧
    exampleRef.readName exampleStore ≠
      exampleRef.readName (SetStore.add exampleStore 0 "self") := by
  refine ⟨rfl, rfl, ?_, ?_⟩ <;> decide

/-- C10: each record type behaves as a tuple: fields are accessible by
integer index in declaration order (for `DecoratorAnnotationSpecification`,
`decorator` is at index 0), construction accepts positional arguments in
that same order, and an instance compares equal (Python `==`) to the bare
tuple of its field values, so equality does not distinguish the record from
that tuple. -/
theorem namedtuple_tuple_behavior :
    (∀ s : DecoratorAnnotationSpecification,
      s.toTuple.get? 0 = some (PyValue.str s.decorator) ∧
      s.toTuple.get? 1 = some (optStr s.arg_annotation) ∧
      s.toTuple.get? 2 = some (optStr s.vararg_annotation) ∧
      s.toTuple.get? 3 = some (optStr s.kwarg_annotation) ∧
      s.toTuple.get? 4 = some (optStr s.return_annotation) ∧
      s.toTuple.get? 5 = some (optStrSet s.parameter_type_whitelist) ∧
      s.toTuple.get? 6 = some (optStrSet s.parameter_name_whitelist)) ∧
    (∀ d a v k r tw nw,
      DecoratorAnnotationSpecification.ofPositional d a v k r tw nw =
        { decorator := d, arg_annotation := a, vararg_annotation := v,
          kwarg_annotation := k, return_annotation := r,
          parameter_type_whitelist := tw,
          parameter_name_whitelist := nw }) ∧
    (∀ s : DecoratorAnnotationSpecification,
      pyTupleEq s.toTuple
        [PyValue.str s.decorator, optStr s.arg_annotation,
         optStr s.vararg_annotation, optStr s.kwarg_annotation,
         optStr s.return_annotation, optStrSet s.parameter_type_whitelist,
         optStrSet s.parameter_name_whitelist] = true) ∧
    (∀ s : AnnotationSpecification,
      pyTupleEq s.toTuple
        [optStr s.arg, optStr s.vararg, optStr s.kwarg,
         optStr s.returns] = true) ∧
    (∀ s : WhitelistSpecification,
      pyTupleEq s.toTuple
        [optStrSet s.parameter_type, optStrSet s.parameter_name] = true) :=
  ⟨fun _s => ⟨rfl, rfl, rfl, rfl, rfl, rfl, rfl⟩,
   fun _d _a _v _k _r _tw _nw => rfl,
   fun _s => decide_eq_true rfl,
   fun _s => decide_eq_true rfl,
   fun _s => decide_eq_true rfl⟩
